import Mathlib

/-!
Shallow embedding of the release-gate evaluation logic of
`generate_gate_analysis.py`: the five gates, their inputs, the remediation
estimates and the overall release-readiness verdict.  Percentages and ratios
are modelled over `ℚ` (the script computes them with exact small decimals),
counts over `ℕ` (they are produced by incrementing loops starting at 0), and
Python integer subtraction over `ℤ`.
-/

namespace GateAnalysis

/-- One row of the platform-type coverage query consumed by Gate 1.
The `pass_rate` field is `none` when the SQL `NULLIF` denominator
(`tests_executed`) is zero, mirroring a NULL / NaN cell in the dataframe. -/
structure MetricRow where
  coverage_percent : ℚ
  tests_executed : ℕ
  available_tests : ℕ
  pass_rate : Option ℚ
deriving DecidableEq

/-- One row of the per-platform coverage query consumed by Gate 2. -/
structure PlatformRow where
  coverage_percent : ℚ
  tests_executed : ℕ
  available_tests : ℕ
deriving DecidableEq

/-- The single overall metrics row consumed by Gate 5 (fields of
`df_overall` after extraction). -/
structure OverallMetrics where
  coverage : ℚ
  pass_rate : ℚ
  tests_executed : ℕ
  available_tests : ℕ
  tests_passed : ℕ
  total_executions : ℕ
deriving DecidableEq

/-- Extraction of the overall metrics: the script wraps the query in
`try/except` and also guards `df_overall.empty`; on either failure path
(including the SQL division fault when `total_available` is 0) every overall
metric is set to 0. `none` models those failure paths. -/
def overallOfQuery : Option OverallMetrics → OverallMetrics
  | some m => m
  | none => ⟨0, 0, 0, 0, 0, 0⟩

/-- Bug counts queried from the issue tracker (Gate 3 input). -/
structure BugCounts where
  on_dev : ℕ
  on_qa : ℕ
  total_open : ℕ
deriving DecidableEq

/-- Sub-test execution counters (Gate 4 input), as accumulated by the
counting loop of the script. -/
structure SubTaskExecutionCounts where
  total : ℕ
  accepted : ℕ
  completed : ℕ
  in_progress : ℕ
  not_started : ℕ
deriving DecidableEq

/-! ### Sub-test execution counting loop -/

/-- Statuses the counting loop treats as completed (the first membership
test of the loop body). -/
def completedStatuses : List String :=
  ["done", "completed", "passed", "failed", "closed", "accepted"]

/-- Statuses the counting loop treats as in progress. -/
def inProgressStatuses : List String :=
  ["in progress", "executing", "in review"]

/-- One iteration of the sub-test counting loop: lowercase the status, skip
`trash`, otherwise bump `total` and exactly one of the three category
counters, bumping `accepted` only inside the completed branch when the
status is exactly `accepted`. -/
def countStep (c : SubTaskExecutionCounts) (status_raw : String) :
    SubTaskExecutionCounts :=
  let status := status_raw.toLower
  if status = "trash" then c
  else
    let c1 : SubTaskExecutionCounts := { c with total := c.total + 1 }
    if completedStatuses.contains status then
      { c1 with
        completed := c1.completed + 1,
        accepted := if status = "accepted" then c1.accepted + 1 else c1.accepted }
    else if inProgressStatuses.contains status then
      { c1 with in_progress := c1.in_progress + 1 }
    else
      { c1 with not_started := c1.not_started + 1 }

/-- The whole counting loop: counters start at 0 and each issue status is
processed by `countStep`. -/
def countSubTests (statuses : List String) : SubTaskExecutionCounts :=
  statuses.foldl countStep ⟨0, 0, 0, 0, 0⟩

/-- When the issue-tracker session is absent (`if jira:` is false) the bug
counters keep their initialised value 0. -/
def bugCountsOfProvider : Option BugCounts → BugCounts
  | some b => b
  | none => ⟨0, 0, 0⟩

/-- When the issue-tracker session is absent the sub-test counters keep
their initialised value 0; otherwise they are produced by the counting
loop over the returned issue statuses. -/
def subTestCountsOfProvider : Option (List String) → SubTaskExecutionCounts
  | some statuses => countSubTests statuses
  | none => ⟨0, 0, 0, 0, 0⟩

/-! ### Gate 1 -/

/-- Extraction of a row's pass ratio: `row['pass_ratio']` when present and
not NaN, else 0. -/
def rowPassRate (r : MetricRow) : ℚ := r.pass_rate.getD 0

/-- Per-row coverage check of Gate 1: `coverage > 90`. -/
def rowCoveragePassed (r : MetricRow) : Bool := decide (r.coverage_percent > 90)

/-- Per-row pass-ratio check of Gate 1: `pass_ratio > 90`. -/
def rowPassRatePassed (r : MetricRow) : Bool := decide (rowPassRate r > 90)

/-- A Gate 1 row passes iff both its coverage and pass-ratio checks pass. -/
def rowPassed (r : MetricRow) : Bool := rowCoveragePassed r && rowPassRatePassed r

/-- Gate 1 verdict: `gate1_passed` starts `True` and is set `False` by every
failing row of the loop. -/
def gate1Passed (rows : List MetricRow) : Bool :=
  rows.foldl (fun acc r => if rowPassed r then acc else false) true

/-! ### Remediation estimate (Gate 1 rows; the same formulas at the Gate 5
recommendation block) -/

/-- Python `int()` applied to a rational: truncation toward zero. -/
def truncInt (q : ℚ) : ℤ := if 0 ≤ q then ⌊q⌋ else -⌊-q⌋

/-- The coverage gap of a row: `max(0, 90.0 - coverage)`. -/
def coverageGap (coverage : ℚ) : ℚ := max 0 (90 - coverage)

/-- Remediation test count: `int((gap_percentage / 100.0) * available_tests)`. -/
def testsNeeded (coverage : ℚ) (available_tests : ℕ) : ℤ :=
  truncInt ((coverageGap coverage / 100) * available_tests)

/-- Remediation hour estimate:
`tests_needed / tests_per_hour if tests_per_hour > 0 else 0`. -/
def hoursNeeded (tn : ℤ) (tests_per_hour : ℚ) : ℚ :=
  if tests_per_hour > 0 then (tn : ℚ) / tests_per_hour else 0

/-- Gate 5 remediation test count, computed in the recommendation block from
`coverage_gap` and `available_tests` of the overall metrics by the same
`int((gap / 100.0) * available)` expression. -/
def gate5TestsNeeded (m : OverallMetrics) : ℤ :=
  truncInt ((coverageGap m.coverage / 100) * m.available_tests)

/-! ### Gates 2 to 5 and the overall verdict -/

/-- A Gate 2 platform row passes iff `coverage > 50`. -/
def platformPassed (r : PlatformRow) : Bool := decide (r.coverage_percent > 50)

/-- Gate 2 verdict: `gate2_passed` starts `True` and is set `False` by every
failing platform row. -/
def gate2Passed (rows : List PlatformRow) : Bool :=
  rows.foldl (fun acc r => if platformPassed r then acc else false) true

/-- Gate 3 verdict: `total_open_bugs == 0`. -/
def gate3Passed (b : BugCounts) : Bool := decide (b.total_open = 0)

/-- Gate 4 gap: `(total - accepted) / total * 100` when `total > 0`, else 0. -/
def gapPercentage (c : SubTaskExecutionCounts) : ℚ :=
  if c.total > 0 then ((c.total : ℚ) - (c.accepted : ℚ)) / (c.total : ℚ) * 100
  else 0

/-- Gate 4 completed-but-not-accepted count, Python integer subtraction. -/
def completedNotAccepted (c : SubTaskExecutionCounts) : ℤ :=
  (c.completed : ℤ) - (c.accepted : ℤ)

/-- Gate 4 full pass: `total > 0 and accepted == total`. -/
def gate4FullyPassed (c : SubTaskExecutionCounts) : Bool :=
  decide (c.total > 0) && decide (c.accepted = c.total)

/-- Gate 4 tolerated pending state: not fully passed, gap strictly below 5
percent, and no completed-but-unaccepted items. -/
def gate4PendingOk (c : SubTaskExecutionCounts) : Bool :=
  !gate4FullyPassed c && decide (gapPercentage c < 5) &&
    decide (completedNotAccepted c = 0)

/-- Gate 4 verdict: fully passed or tolerated pending. -/
def gate4Passed (c : SubTaskExecutionCounts) : Bool :=
  gate4FullyPassed c || gate4PendingOk c

/-- Gate 5 coverage check: `overall_coverage > 90`. -/
def gate5CoveragePassed (m : OverallMetrics) : Bool := decide (m.coverage > 90)

/-- Gate 5 pass-ratio check: `overall_pass_ratio > 90`. -/
def gate5PassRatePassed (m : OverallMetrics) : Bool := decide (m.pass_rate > 90)

/-- Gate 5 verdict: both overall checks pass. -/
def gate5Passed (m : OverallMetrics) : Bool :=
  gate5CoveragePassed m && gate5PassRatePassed m

/-- One entry of the `gates_status` list. -/
structure GateStatus where
  gate : String
  name : String
  passed : Bool
deriving DecidableEq

/-- All inputs of one evaluation run. -/
structure EvalInput where
  platform_type_rows : List MetricRow
  platform_rows : List PlatformRow
  bugs : BugCounts
  subs : SubTaskExecutionCounts
  overall : OverallMetrics
deriving DecidableEq

/-- The `gates_status` list built by the script, in gate order. -/
def gatesStatus (inp : EvalInput) : List GateStatus :=
  [⟨"Gate 1", "Platform Type Coverage", gate1Passed inp.platform_type_rows⟩,
   ⟨"Gate 2", "Platform Coverage", gate2Passed inp.platform_rows⟩,
   ⟨"Gate 3", "No Open Bugs", gate3Passed inp.bugs⟩,
   ⟨"Gate 4", "Sub Test Executions", gate4Passed inp.subs⟩,
   ⟨"Gate 5", "Overall Metrics", gate5Passed inp.overall⟩]

/-- Overall release readiness: `all(g['passed'] for g in gates_status)`. -/
def overallPassed (inp : EvalInput) : Bool :=
  (gatesStatus inp).all (fun g => g.passed)

/-- Per-row detail record of the Gate 1 loop (the fields the claims are
about). -/
structure RowDetail where
  coverage : ℚ
  pass_rate : ℚ
  passed : Bool
  tests_needed : ℤ
  hours_needed : ℚ
deriving DecidableEq

/-- The detail record appended for one Gate 1 row. -/
def gate1Detail (tests_per_hour : ℚ) (r : MetricRow) : RowDetail :=
  let tn := testsNeeded r.coverage_percent r.available_tests
  ⟨r.coverage_percent, rowPassRate r, rowPassed r, tn, hoursNeeded tn tests_per_hour⟩

/-- The full evaluation output relevant to the claims: the Gate 1 detail
rows (which carry the time estimates), the Gate 5 remediation estimate, the
`gates_status` list and the overall verdict. -/
structure EvalOutput where
  gate1_details : List RowDetail
  gate5_tests_needed : ℤ
  gate5_hours_needed : ℚ
  gates : List GateStatus
  overall : Bool
deriving DecidableEq

/-- One evaluation run of the script over explicit inputs. -/
def evaluate (inp : EvalInput) (tests_per_hour : ℚ) : EvalOutput :=
  ⟨inp.platform_type_rows.map (gate1Detail tests_per_hour),
   gate5TestsNeeded inp.overall,
   hoursNeeded (gate5TestsNeeded inp.overall) tests_per_hour,
   gatesStatus inp,
   overallPassed inp⟩

/-- Modelled from the spec: the validation the spec requires on
SubTaskExecutionCounts inputs (no negative counts arise over `ℕ`; the
remaining conditions are the §3 invariant `accepted <= completed <= total`
and `completed + in_progress + not_started == total`, whose violation the
spec calls malformed). The script itself contains no such check. -/
def validSubTaskCounts (c : SubTaskExecutionCounts) : Bool :=
  decide (c.accepted ≤ c.completed) && decide (c.completed ≤ c.total) &&
    decide (c.completed + c.in_progress + c.not_started = c.total)

end GateAnalysis

namespace GateAnalysis

/-! ### Helper lemmas -/

/-- The SubTaskExecutionCounts invariant of the data model. -/
def countsInv (c : SubTaskExecutionCounts) : Prop :=
  c.accepted ≤ c.completed ∧ c.completed ≤ c.total ∧
    c.completed + c.in_progress + c.not_started = c.total

theorem countStep_inv (c : SubTaskExecutionCounts) (s : String)
    (h : countsInv c) : countsInv (countStep c s) := by
  obtain ⟨h1, h2, h3⟩ := h
  unfold countStep
  dsimp only
  split_ifs <;> simp_all [countsInv] <;> omega

theorem foldl_countStep_inv (statuses : List String) :
    ∀ c : SubTaskExecutionCounts, countsInv c →
      countsInv (statuses.foldl countStep c) := by
  induction statuses with
  | nil => intro c h; exact h
  | cons s rest ih =>
      intro c h
      exact ih (countStep c s) (countStep_inv c s h)

/-! ### Claims -/

/-- C9: for every sequence of sub-task issue statuses, the counts produced
by the counting loop satisfy the SubTaskExecutionCounts invariant
`accepted <= completed <= total` and
`completed + in_progress + not_started == total`. -/
theorem count_invariant (statuses : List String) :
    (countSubTests statuses).accepted ≤ (countSubTests statuses).completed ∧
    (countSubTests statuses).completed ≤ (countSubTests statuses).total ∧
    (countSubTests statuses).completed + (countSubTests statuses).in_progress +
      (countSubTests statuses).not_started = (countSubTests statuses).total :=
  foldl_countStep_inv statuses ⟨0, 0, 0, 0, 0⟩ ⟨le_refl 0, le_refl 0, rfl⟩

/-- C1: Gate 4 is a three-way outcome: `fully_passed` iff
`total > 0 and accepted == total`; `pending_ok` iff not fully passed, gap
strictly below 5 percent and no completed-but-unaccepted items; the gap is
`(total - accepted) / total * 100` (0 when `total == 0`); the gate passes
iff fully passed or pending-ok; and on counts satisfying the data-model
bound `completed <= total`, any input with `completed - accepted > 0` makes
the gate not pass, regardless of the gap. -/
theorem gate4_three_way_outcome (c : SubTaskExecutionCounts) :
    (gate4FullyPassed c = true ↔ 0 < c.total ∧ c.accepted = c.total) ∧
    (gate4PendingOk c = true ↔
      gate4FullyPassed c = false ∧ gapPercentage c < 5 ∧
        completedNotAccepted c = 0) ∧
    (0 < c.total →
      gapPercentage c = ((c.total : ℚ) - (c.accepted : ℚ)) / (c.total : ℚ) * 100) ∧
    (c.total = 0 → gapPercentage c = 0) ∧
    gate4Passed c = (gate4FullyPassed c || gate4PendingOk c) ∧
    (c.completed ≤ c.total → 0 < completedNotAccepted c →
      gate4Passed c = false) := by
  refine ⟨?_, ?_, ?_, ?_, rfl, ?_⟩
  · simp [gate4FullyPassed]
  · simp [gate4PendingOk, Bool.and_eq_true, decide_eq_true_eq,
      Bool.not_eq_true', and_assoc]
  · intro h; simp [gapPercentage, h]
  · intro h; simp [gapPercentage, h]
  · intro hle hpos
    have hca : c.accepted < c.completed := by
      unfold completedNotAccepted at hpos; omega
    have hne : c.accepted ≠ c.total := by omega
    have hf : gate4FullyPassed c = false := by
      simp [gate4FullyPassed, hne]
    have hcna : completedNotAccepted c ≠ 0 := by
      unfold completedNotAccepted at *; omega
    simp [gate4Passed, gate4PendingOk, hf, hcna]

/-- C1 witness: a concrete input with a completed-but-unaccepted item
(total 5, accepted 3, completed 4) does not pass Gate 4. -/
theorem gate4_three_way_outcome_witness :
    gate4Passed ⟨5, 3, 4, 1, 0⟩ = false :=
  (gate4_three_way_outcome ⟨5, 3, 4, 1, 0⟩).2.2.2.2.2 (by decide) (by decide)

/-- C2: a Gate 1 row passes iff coverage and pass ratio are both strictly
above 90, the single Gate 5 verdict likewise, and a value of exactly 90 on
either metric yields a failing verdict. -/
theorem gate1_gate5_strict_threshold (r : MetricRow) (m : OverallMetrics) :
    (rowPassed r = true ↔ 90 < r.coverage_percent ∧ 90 < rowPassRate r) ∧
    (gate5Passed m = true ↔ 90 < m.coverage ∧ 90 < m.pass_rate) ∧
    (r.coverage_percent = 90 ∨ rowPassRate r = 90 → rowPassed r = false) ∧
    (m.coverage = 90 ∨ m.pass_rate = 90 → gate5Passed m = false) := by
  refine ⟨?_, ?_, ?_, ?_⟩
  · simp [rowPassed, rowCoveragePassed, rowPassRatePassed]
  · simp [gate5Passed, gate5CoveragePassed, gate5PassRatePassed]
  · rintro (h | h) <;>
      simp [rowPassed, rowCoveragePassed, rowPassRatePassed, h]
  · rintro (h | h) <;>
      simp [gate5Passed, gate5CoveragePassed, gate5PassRatePassed, h]

/-- C2 witness: coverage exactly 90 fails a Gate 1 row, and a pass ratio
of exactly 90 fails Gate 5, at concrete inputs. -/
theorem gate1_gate5_strict_threshold_witness :
    rowPassed ⟨90, 900, 1000, some 95⟩ = false ∧
    gate5Passed ⟨95, 90, 950, 1000, 855, 950⟩ = false := by
  have h := gate1_gate5_strict_threshold ⟨90, 900, 1000, some 95⟩
    ⟨95, 90, 950, 1000, 855, 950⟩
  exact ⟨h.2.2.1 (Or.inl rfl), h.2.2.2 (Or.inr rfl)⟩

/-- C3: the overall release-readiness boolean is the conjunction of the
five gate verdicts. -/
theorem overall_is_and_of_gates (inp : EvalInput) :
    overallPassed inp =
      (gate1Passed inp.platform_type_rows && gate2Passed inp.platform_rows &&
        gate3Passed inp.bugs && gate4Passed inp.subs &&
        gate5Passed inp.overall) := by
  simp [overallPassed, gatesStatus, List.all, Bool.and_assoc]

/-- C7: with zero input rows, Gate 1 and Gate 2 still evaluate to a
defined verdict, namely a vacuous pass. -/
theorem empty_rows_vacuous_pass :
    gate1Passed [] = true ∧ gate2Passed [] = true := by
  exact ⟨rfl, rfl⟩

/-- C8: two evaluation runs that differ only in `tests_per_hour` produce
identical gate verdicts and an identical overall verdict; the estimate
only feeds the `hours_needed` fields. -/
theorem tests_per_hour_noninterference (inp : EvalInput) (tph1 tph2 : ℚ) :
    (evaluate inp tph1).gates = (evaluate inp tph2).gates ∧
    (evaluate inp tph1).overall = (evaluate inp tph2).overall :=
  ⟨rfl, rfl⟩

/-- C6: the remediation estimate of a Gate 1 row (and, by the identical
formula, of Gate 5) satisfies `coverage_gap = max(0, 90 - coverage)`,
`tests_needed = floor(coverage_gap / 100 * available_tests)`,
`hours_needed = tests_needed / tests_per_hour` for a positive rate and 0
otherwise, and `tests_needed` is monotonically non-decreasing as coverage
decreases for fixed `available_tests`. -/
theorem remediation_estimate (cov cov' : ℚ) (avail : ℕ) (tph : ℚ)
    (m : OverallMetrics) :
    coverageGap cov = max 0 (90 - cov) ∧
    testsNeeded cov avail = ⌊coverageGap cov / 100 * (avail : ℚ)⌋ ∧
    (0 < tph → hoursNeeded (testsNeeded cov avail) tph =
      ((testsNeeded cov avail : ℤ) : ℚ) / tph) ∧
    (tph ≤ 0 → hoursNeeded (testsNeeded cov avail) tph = 0) ∧
    gate5TestsNeeded m = testsNeeded m.coverage m.available_tests ∧
    (cov' ≤ cov → testsNeeded cov avail ≤ testsNeeded cov' avail) := by
  have hg : ∀ x : ℚ, 0 ≤ coverageGap x := fun x => le_max_left _ _
  have hq : ∀ x : ℚ, 0 ≤ coverageGap x / 100 * (avail : ℚ) := by
    intro x
    have := hg x
    positivity
  refine ⟨rfl, ?_, ?_, ?_, rfl, ?_⟩
  · simp [testsNeeded, truncInt, hq cov]
  · intro h; simp [hoursNeeded, h]
  · intro h; simp [hoursNeeded, not_lt.mpr h]
  · intro h
    have h1 : coverageGap cov ≤ coverageGap cov' := by
      unfold coverageGap
      exact max_le_max le_rfl (by linarith)
    have h2 : coverageGap cov / 100 * (avail : ℚ) ≤
        coverageGap cov' / 100 * (avail : ℚ) := by gcongr
    calc testsNeeded cov avail
        = ⌊coverageGap cov / 100 * (avail : ℚ)⌋ := by
          simp [testsNeeded, truncInt, hq cov]
      _ ≤ ⌊coverageGap cov' / 100 * (avail : ℚ)⌋ := Int.floor_mono h2
      _ = testsNeeded cov' avail := by
          simp [testsNeeded, truncInt, hq cov']

/-- C6 witness: at coverage 40 with 1000 available tests and rate 100,
the estimate evaluates as stated, the zero-rate fallback applies at rate
0, and lowering coverage to 30 does not decrease `tests_needed`. -/
theorem remediation_estimate_witness :
    hoursNeeded (testsNeeded 40 1000) 100 =
      ((testsNeeded 40 1000 : ℤ) : ℚ) / 100 ∧
    hoursNeeded (testsNeeded 40 1000) 0 = 0 ∧
    testsNeeded 40 1000 ≤ testsNeeded 30 1000 := by
  have h := remediation_estimate 40 30 1000 100 ⟨0, 0, 0, 0, 0, 0⟩
  have h0 := remediation_estimate 40 30 1000 0 ⟨0, 0, 0, 0, 0, 0⟩
  exact ⟨h.2.2.1 (by norm_num), h0.2.2.2.1 (by norm_num),
    h.2.2.2.2.2 (by norm_num)⟩

/-- C4 counterexample: a zero sub-task total is a zero denominator whose
gap is treated as 0, yet Gate 4 then passes, so a zero denominator IS
presented as passing there. -/
theorem zero_denominator_counterexample :
    gapPercentage ⟨0, 0, 0, 0, 0⟩ = 0 ∧
    gate4Passed ⟨0, 0, 0, 0, 0⟩ = true := by decide

/-- C4 amended: a zero denominator never raises a fault and the affected
ratio is treated as 0; for pass-ratio (NULL cell) and for the overall
metrics (failed query) this also yields a failing verdict, while a zero
sub-task total yields `gap_percentage = 0`. -/
theorem zero_denominator_treated_as_zero (r : MetricRow)
    (q : Option OverallMetrics) (c : SubTaskExecutionCounts) :
    (r.pass_rate = none → rowPassRate r = 0 ∧ rowPassRatePassed r = false) ∧
    (q = none → overallOfQuery q = ⟨0, 0, 0, 0, 0, 0⟩ ∧
      gate5Passed (overallOfQuery q) = false) ∧
    (c.total = 0 → gapPercentage c = 0) := by
  refine ⟨?_, ?_, ?_⟩
  · intro h
    constructor
    · simp [rowPassRate, h]
    · simp [rowPassRatePassed, rowPassRate, h]
  · intro h
    subst h
    exact ⟨rfl, rfl⟩
  · intro h; simp [gapPercentage, h]

/-- C4 witness: the amended statement evaluated at a NULL pass-ratio row,
an absent overall query result and a zero sub-task total. -/
theorem zero_denominator_treated_as_zero_witness :
    rowPassRatePassed ⟨50, 0, 100, none⟩ = false ∧
    gate5Passed (overallOfQuery none) = false ∧
    gapPercentage ⟨0, 1, 1, 0, 0⟩ = 0 := by
  have h := zero_denominator_treated_as_zero ⟨50, 0, 100, none⟩ none
    ⟨0, 1, 1, 0, 0⟩
  exact ⟨(h.1 rfl).2, (h.2.1 rfl).2, h.2.2 rfl⟩

/-- C5 counterexample: the malformed input `accepted = 20 > total = 10`
fails the validation the spec demands, yet Gate 4 evaluates it and even
returns a passing verdict instead of rejecting it. -/
theorem no_validation_counterexample :
    validSubTaskCounts ⟨10, 20, 20, 0, 0⟩ = false ∧
    gate4Passed ⟨10, 20, 20, 0, 0⟩ = true := by
  constructor
  · decide
  · norm_num [gate4Passed, gate4FullyPassed, gate4PendingOk, gapPercentage,
      completedNotAccepted]

/-- C5 amended: gate evaluation performs no input validation: every input,
malformed ones included, is evaluated and all five gates produce a
verdict. -/
theorem evaluation_total_no_validation (inp : EvalInput) (tph : ℚ) :
    (evaluate inp tph).gates.map (fun g => g.gate) =
      ["Gate 1", "Gate 2", "Gate 3", "Gate 4", "Gate 5"] ∧
    (evaluate inp tph).gates.length = 5 := by
  exact ⟨rfl, rfl⟩

/-- C10: an absent issue-tracker session leaves every bug and sub-task
counter at 0; on those defaults Gate 3 passes (`total_open == 0`) and
Gate 4 passes through `pending_ok` (not fully passed since `total == 0`,
but gap 0 and no completed-unaccepted items), so the pass/fail output
matches that of a clean, fully-accepted release. -/
theorem absent_provider_passes_gates :
    bugCountsOfProvider none = ⟨0, 0, 0⟩ ∧
    subTestCountsOfProvider none = ⟨0, 0, 0, 0, 0⟩ ∧
    gate3Passed (bugCountsOfProvider none) = true ∧
    gate4FullyPassed (subTestCountsOfProvider none) = false ∧
    gapPercentage (subTestCountsOfProvider none) = 0 ∧
    completedNotAccepted (subTestCountsOfProvider none) = 0 ∧
    gate4PendingOk (subTestCountsOfProvider none) = true ∧
    gate4Passed (subTestCountsOfProvider none) = true ∧
    gate4Passed ⟨10, 10, 10, 0, 0⟩ =
      gate4Passed (subTestCountsOfProvider none) := by decide

end GateAnalysis
